import Mathlib

/-!
Shallow embedding of the dummy-central-system repository (Rust):
the OCPP message model and wire codec (src/ocpp.rs), the central-system
dispatcher (src/cs.rs), and the certification-authority boundary
(src/x509.rs).

Rust `panic!` sites (an `unwrap` of `None`/`Err`, an out-of-bounds index)
are modelled as an explicit `panic` constructor of the outcome types, so
that "returns an error" and "panics" are distinguishable results.
Nondeterministic inputs of the dispatcher (the freshly generated UUID,
the wall clock) are passed as explicit parameters.
-/

namespace DummyCS

/-- JSON values as handled by the `json` crate: the payloads of the
protocol. Objects keep insertion order, as `json::object!` does. -/
inductive Json where
  | null : Json
  | bool (b : Bool) : Json
  | num (n : Int) : Json
  | str (s : String) : Json
  | arr (elems : List Json) : Json
  | obj (fields : List (String × Json)) : Json

/-- `JsonValue::len()` of the `json` crate: length for arrays and
objects, `0` for every other value. -/
def Json.len : Json → Nat
  | .arr xs => xs.length
  | .obj fs => fs.length
  | _ => 0

/-- Lookup of a key in an ordered field list (first match wins). -/
def lookupField : List (String × Json) → String → Json
  | [], _ => .null
  | (k', v) :: rest, k => if k' = k then v else lookupField rest k

/-- `value[key]` of the `json` crate: member of an object, `Null` for a
missing member or any non-object value. -/
def Json.getField (j : Json) (k : String) : Json :=
  match j with
  | .obj fs => lookupField fs k
  | _ => .null

/-- `value[index]` of the `json` crate: element of an array, `Null` out
of range or on any non-array value. -/
def Json.idx (j : Json) (i : Nat) : Json :=
  match j with
  | .arr xs => xs.getD i .null
  | _ => .null

/-- `JsonValue::as_str`: `Some` exactly on strings. -/
def Json.asStr : Json → Option String
  | .str s => some s
  | _ => none

/-- `JsonValue::as_u8`: `Some` exactly on numbers representable as `u8`. -/
def Json.asU8 : Json → Option Nat
  | .num n => if 0 ≤ n ∧ n ≤ 255 then some n.toNat else none
  | _ => none

/-- The three message roles (`MessageType` in src/ocpp.rs). -/
inductive MessageType where
  | call
  | callResult
  | callError
deriving DecidableEq

/-- `TryFrom<u8> for MessageType`: 2, 3, 4 map to the roles, everything
else is an error. -/
def MessageType.tryFromU8 (value : Nat) : Option MessageType :=
  match value with
  | 2 => some .call
  | 3 => some .callResult
  | 4 => some .callError
  | _ => none

/-- Wire integer of a role (the `match` in `pack_message`). -/
def MessageType.toWire : MessageType → Nat
  | .call => 2
  | .callResult => 3
  | .callError => 4

/-- The closed command enumeration (`Command` in src/ocpp.rs). -/
inductive Command where
  | bootNotification
  | statusNotification
  | heartbeat
  | signCertificate
  | certificateSigned
  | startTransaction
  | meterValues
  | stopTransaction
  | authorize
deriving DecidableEq

/-- `ToString for Command`: the canonical wire casing. -/
def Command.toWireString : Command → String
  | .bootNotification => "BootNotification"
  | .statusNotification => "StatusNotification"
  | .heartbeat => "Heartbeat"
  | .signCertificate => "SignCertificate"
  | .certificateSigned => "CertificateSigned"
  | .startTransaction => "StartTransaction"
  | .meterValues => "MeterValues"
  | .stopTransaction => "StopTransaction"
  | .authorize => "Authorize"

/-- ASCII lowercase of one character (`u8::to_ascii_lowercase`). -/
def asciiLower (c : Char) : Char :=
  if 'A' ≤ c ∧ c ≤ 'Z' then Char.ofNat (c.toNat + 32) else c

/-- `str::eq_ignore_ascii_case`. -/
def eqIgnoreAsciiCase (a b : String) : Bool :=
  a.data.map asciiLower = b.data.map asciiLower

/-- `TryFrom<&str> for Command`: case-insensitive matching of the nine
command names; an unrecognized string is an error (turned into `None`
by `.ok()` at the use site). -/
def Command.tryFromStr (value : String) : Option Command :=
  if eqIgnoreAsciiCase value "BootNotification" then some .bootNotification
  else if eqIgnoreAsciiCase value "StatusNotification" then some .statusNotification
  else if eqIgnoreAsciiCase value "Heartbeat" then some .heartbeat
  else if eqIgnoreAsciiCase value "SignCertificate" then some .signCertificate
  else if eqIgnoreAsciiCase value "CertificateSigned" then some .certificateSigned
  else if eqIgnoreAsciiCase value "StartTransaction" then some .startTransaction
  else if eqIgnoreAsciiCase value "MeterValues" then some .meterValues
  else if eqIgnoreAsciiCase value "StopTransaction" then some .stopTransaction
  else if eqIgnoreAsciiCase value "Authorize" then some .authorize
  else none

/-- One protocol frame (`Message` in src/ocpp.rs). -/
structure Message where
  role : MessageType
  id : String
  command : Option Command
  payload : Option Json

/-- Outcome of `unpack_message`: a message, a returned `Err(&str)`, or a
Rust panic (an `unwrap` of `None`/`Err`). -/
inductive UnpackOutcome where
  | ok (m : Message)
  | fail (e : String)
  | panic

/-- `unpack_message` (src/ocpp.rs:136-180), modelled on the parsed JSON
value: positions [type, id, command?, payload?]; length must exceed the
id index; element 0 read with `as_u8` then `MessageType::try_from`,
element 1 with `as_str` then an emptiness check. The `.ok_or(..).unwrap()`
calls panic (they do not return the error) when `as_u8`/`as_str` fail or
the type code is unmapped. -/
def unpackMessage (data : Json) : UnpackOutcome :=
  if data.len ≤ 1 then .fail "invalid len"
  else
    match (data.idx 0).asU8 with
    | none => .panic
    | some typeRaw =>
      match (data.idx 1).asStr with
      | none => .panic
      | some idRaw =>
        if idRaw = "" then .fail "id is empty"
        else
          match MessageType.tryFromU8 typeRaw with
          | none => .panic
          | some msgType =>
            let msgCommand :=
              if 2 < data.len then
                match (data.idx 2).asStr with
                | some unpacked => Command.tryFromStr unpacked
                | none => none
              else none
            let msgPayload :=
              if 3 < data.len then some (data.idx 3) else none
            .ok ⟨msgType, idRaw, msgCommand, msgPayload⟩

/-- `pack_message` (src/ocpp.rs:182-200), modelled up to `json::stringify`:
the JSON array `[type_int, id]` with the command name appended when
present, then the payload when present. -/
def packMessage (message : Message) : Json :=
  .arr ([Json.num message.role.toWire, Json.str message.id]
    ++ (match message.command with
        | some cmd => [Json.str cmd.toWireString]
        | none => [])
    ++ (match message.payload with
        | some payload => [payload]
        | none => []))

/-- Certificate/CSR encodings (`Format` in src/x509.rs). -/
inductive Format where
  | der
  | pem
deriving DecidableEq

/-- A signed certificate: raw bytes plus format (src/x509.rs). -/
structure Certificate where
  data : List Nat
  format : Format

/-- A certificate signing request: raw bytes plus format (src/x509.rs). -/
structure CertificateSignRequest where
  data : List Nat
  format : Format

/-- The certification-authority boundary the dispatcher depends on:
`sign(csr) -> Result<Vec<Certificate>, &str>`. The concrete
`DefaultCertificationAuthority` shells out to openssl, so the dispatcher
is modelled as parametric in this function. -/
def CertificationAuthority : Type :=
  CertificateSignRequest → Except String (List Certificate)

/-- UTF-8 bytes of a string (`str::as_bytes`). -/
def strBytes (s : String) : List Nat :=
  s.toUTF8.toList.map (fun b => b.toNat)

/-- One lowercase hex digit. -/
def hexDigit (n : Nat) : Char :=
  if n < 10 then Char.ofNat (48 + n) else Char.ofNat (97 + n - 10)

/-- `hex::encode`: two lowercase hex digits per byte, in order. -/
def hexEncode (bytes : List Nat) : String :=
  String.mk ((bytes.map (fun b => [hexDigit (b / 16 % 16), hexDigit (b % 16)])).flatten)

/-- Outcome of `make_response`: messages, a returned `Err(&str)`, or a
Rust panic (an `unwrap` of `None`, an out-of-bounds `Vec` index). -/
inductive DispatchOutcome where
  | ok (msgs : List Message)
  | fail (e : String)
  | panic

/-- The fixed far-future timestamp used by several handlers. -/
def farFuture : String := "2030-12-31T11:59:59.000000Z"

/-- `make_boot_notification_response` (src/cs.rs:66-75); `now` stands for
`make_timestamp()`. -/
def makeBootNotificationResponse (now : String) (request : Message) : DispatchOutcome :=
  let payload : Json := .obj
    [("status", .str "Accepted"), ("currentTime", .str now), ("interval", .num 60)]
  .ok [⟨.callResult, request.id, none, some payload⟩]

/-- `make_status_notification_response` (src/cs.rs:77-80). -/
def makeStatusNotificationResponse (request : Message) : DispatchOutcome :=
  .ok [⟨.callResult, request.id, none, some (.obj [])⟩]

/-- `make_start_transaction_response` (src/cs.rs:82-89); `nowSec` stands
for `Utc::now().timestamp_millis() / 1000`, truncated to `u32`. -/
def makeStartTransactionResponse (nowSec : Nat) (request : Message) : DispatchOutcome :=
  let ts : Int := Int.ofNat (nowSec % 2 ^ 32)
  let tagInfo : Json := .obj [("status", .str "Accepted"), ("expiryDate", .str farFuture)]
  let status : Json := .obj [("transactionId", .num ts), ("idTagInfo", tagInfo)]
  .ok [⟨.callResult, request.id, none, some status⟩]

/-- `make_stop_transaction_response` (src/cs.rs:91-96). -/
def makeStopTransactionResponse (request : Message) : DispatchOutcome :=
  let tagInfo : Json := .obj [("status", .str "Accepted"), ("expiryDate", .str farFuture)]
  .ok [⟨.callResult, request.id, none, some tagInfo⟩]

/-- `make_authorize_response` (src/cs.rs:98-105): `request.payload.unwrap()`
panics when the payload is absent; otherwise `payload["evseId"]` is echoed
(Null when the member is missing). -/
def makeAuthorizeResponse (request : Message) : DispatchOutcome :=
  match request.payload with
  | none => .panic
  | some reqPayload =>
    let evses := reqPayload.getField "evseId"
    let tokenInfo : Json := .obj
      [("status", .str "Accepted"), ("cacheExpiryDateTime", .str farFuture)]
    let data : Json := .obj [("evseId", evses), ("idTokenInfo", tokenInfo)]
    .ok [⟨.callResult, request.id, none, some data⟩]

/-- `make_meter_values_response` (src/cs.rs:107-110). -/
def makeMeterValuesResponse (request : Message) : DispatchOutcome :=
  .ok [⟨.callResult, request.id, none, some (.obj [])⟩]

/-- `make_heartbeat_response` (src/cs.rs:112-119). -/
def makeHeartbeatResponse (now : String) (request : Message) : DispatchOutcome :=
  .ok [⟨.callResult, request.id, none, some (.obj [("currentTime", .str now)])⟩]

/-- The acknowledgment payload `{status: Accepted}` of the
sign-certificate path. -/
def ackPayload : Json := .obj [("status", .str "Accepted")]

/-- `make_sign_certificate_response` (src/cs.rs:121-165); `freshId` stands
for `uuid::Uuid::new_v4().to_string()`. Absent payload returns
`Err("payload is empty")`; the `as_str().unwrap()` reads of
`typeOfCertificate` and `csr` panic on a missing or non-string member;
`cert[0]` panics when the CA returns an empty vector; a CA error returns
`Err("")`, discarding the already-pushed acknowledgment. -/
def makeSignCertificateResponse (ca : CertificationAuthority) (freshId : String)
    (request : Message) : DispatchOutcome :=
  match request.payload with
  | none => .fail "payload is empty"
  | some reqPayload =>
    let ack : Message := ⟨.callResult, request.id, none, some ackPayload⟩
    match (reqPayload.getField "typeOfCertificate").asStr with
    | none => .panic
    | some certType =>
      match (reqPayload.getField "csr").asStr with
      | none => .panic
      | some csrPayload =>
        let csr : CertificateSignRequest := ⟨strBytes csrPayload, .pem⟩
        match ca csr with
        | .ok certs =>
          match certs with
          | [] => .panic
          | cert0 :: _ =>
            let respPayload : Json := .obj
              [("cert", .arr [.str (hexEncode cert0.data)]),
               ("typeOfCertificate", .str certType)]
            .ok [ack, ⟨.call, freshId, some .certificateSigned, some respPayload⟩]
        | .error _ => .fail ""

/-- `make_default_answer` (src/cs.rs:167-170). -/
def makeDefaultAnswer (request : Message) : DispatchOutcome :=
  .ok [⟨.callResult, request.id, none, some (.obj [])⟩]

/-- `make_response` (src/cs.rs:35-62): reject an absent command first,
then dispatch on (role, command); any non-Call role with a command is
`Err("no response")`; a Call with an otherwise-unhandled command (only
CertificateSigned) gets the default answer. -/
def makeResponse (ca : CertificationAuthority) (freshId now : String) (nowSec : Nat)
    (request : Message) : DispatchOutcome :=
  match request.command with
  | none => .fail "command is empty"
  | some cmd =>
    match request.role, cmd with
    | .call, .bootNotification => makeBootNotificationResponse now request
    | .call, .statusNotification => makeStatusNotificationResponse request
    | .call, .heartbeat => makeHeartbeatResponse now request
    | .call, .signCertificate => makeSignCertificateResponse ca freshId request
    | .call, .startTransaction => makeStartTransactionResponse nowSec request
    | .call, .meterValues => makeMeterValuesResponse request
    | .call, .stopTransaction => makeStopTransactionResponse request
    | .call, .authorize => makeAuthorizeResponse request
    | .call, _ => makeDefaultAnswer request
    | _, _ => .fail "no response"

/-- A certification authority that always fails to sign, standing in for
`DefaultCertificationAuthority` when openssl rejects the request. -/
def caFail : CertificationAuthority := fun _ => .error "failed to sign"

/-- A certification authority that returns one certificate with bytes
`[0xde, 0xad]`, standing in for a successful `sign`. -/
def caOk : CertificationAuthority := fun _ => .ok [⟨[222, 173], .pem⟩]

/-- The canonical wire name of a command matches back to that command. -/
theorem tryFromStr_toWireString (c : Command) :
    Command.tryFromStr c.toWireString = some c := by
  cases c <;> rfl

/-- Shape invariant of every successful dispatch: each returned message
is either a CallResult with no command, the request id and a payload, or
the CertificateSigned Call with the fresh id and a payload. -/
theorem makeResponse_ok_mem (ca : CertificationAuthority) (freshId now : String)
    (nowSec : Nat) (req : Message) (msgs : List Message)
    (h : makeResponse ca freshId now nowSec req = .ok msgs) :
    ∀ m ∈ msgs,
      (m.role = .callResult ∧ m.command = none ∧ m.id = req.id ∧ m.payload.isSome)
      ∨ (m.role = .call ∧ m.command = some .certificateSigned ∧ m.id = freshId
          ∧ m.payload.isSome) := by
  unfold makeResponse at h
  split at h
  · exact absurd h (by simp)
  next cmd _ =>
    split at h
    · unfold makeBootNotificationResponse at h
      injection h with h
      subst h
      intro m hm
      simp only [List.mem_singleton] at hm
      subst hm
      exact Or.inl ⟨rfl, rfl, rfl, rfl⟩
    · unfold makeStatusNotificationResponse at h
      injection h with h
      subst h
      intro m hm
      simp only [List.mem_singleton] at hm
      subst hm
      exact Or.inl ⟨rfl, rfl, rfl, rfl⟩
    · unfold makeHeartbeatResponse at h
      injection h with h
      subst h
      intro m hm
      simp only [List.mem_singleton] at hm
      subst hm
      exact Or.inl ⟨rfl, rfl, rfl, rfl⟩
    · unfold makeSignCertificateResponse at h
      split at h
      · exact absurd h (by simp)
      next p hp =>
        split at h
        · exact absurd h (by simp)
        next t ht =>
          split at h
          · exact absurd h (by simp)
          next c hc =>
            dsimp only at h
            split at h
            next certs hca =>
              split at h
              · exact absurd h (by simp)
              next cert0 rest =>
                injection h with h
                subst h
                intro m hm
                simp only [List.mem_cons, List.mem_singleton, List.not_mem_nil,
                  or_false] at hm
                rcases hm with hm | hm <;> subst hm
                · exact Or.inl ⟨rfl, rfl, rfl, rfl⟩
                · exact Or.inr ⟨rfl, rfl, rfl, rfl⟩
            · exact absurd h (by simp)
    · unfold makeStartTransactionResponse at h
      injection h with h
      subst h
      intro m hm
      simp only [List.mem_singleton] at hm
      subst hm
      exact Or.inl ⟨rfl, rfl, rfl, rfl⟩
    · unfold makeMeterValuesResponse at h
      injection h with h
      subst h
      intro m hm
      simp only [List.mem_singleton] at hm
      subst hm
      exact Or.inl ⟨rfl, rfl, rfl, rfl⟩
    · unfold makeStopTransactionResponse at h
      injection h with h
      subst h
      intro m hm
      simp only [List.mem_singleton] at hm
      subst hm
      exact Or.inl ⟨rfl, rfl, rfl, rfl⟩
    · unfold makeAuthorizeResponse at h
      split at h
      · exact absurd h (by simp)
      next p hp =>
        injection h with h
        subst h
        intro m hm
        simp only [List.mem_singleton] at hm
        subst hm
        exact Or.inl ⟨rfl, rfl, rfl, rfl⟩
    · unfold makeDefaultAnswer at h
      injection h with h
      subst h
      intro m hm
      simp only [List.mem_singleton] at hm
      subst hm
      exact Or.inl ⟨rfl, rfl, rfl, rfl⟩
    · exact absurd h (by simp)

/-- C1: for every SignCertificate Call with a payload (whose
typeOfCertificate and csr members are strings, as required to reach the
signing step), if the certification authority fails to sign then
`make_response` returns an error and no message list is returned: the
already-composed acknowledgment is discarded. -/
theorem signCertificate_failure_discards_ack (ca : CertificationAuthority)
    (freshId now : String) (nowSec : Nat) (req : Message) (p : Json)
    (t c e : String)
    (hrole : req.role = .call) (hcmd : req.command = some .signCertificate)
    (hpl : req.payload = some p)
    (ht : (p.getField "typeOfCertificate").asStr = some t)
    (hc : (p.getField "csr").asStr = some c)
    (hca : ca ⟨strBytes c, .pem⟩ = .error e) :
    makeResponse ca freshId now nowSec req = .fail "" ∧
    ∀ msgs : List Message, makeResponse ca freshId now nowSec req ≠ .ok msgs := by
  have key : makeResponse ca freshId now nowSec req = .fail "" := by
    unfold makeResponse makeSignCertificateResponse
    rw [hcmd, hrole, hpl]
    dsimp only
    rw [ht]
    dsimp only
    rw [hc]
    dsimp only
    rw [hca]
  refine ⟨key, fun msgs hcontra => ?_⟩
  rw [key] at hcontra
  exact DispatchOutcome.noConfusion hcontra

/-- Witness for C1 at a concrete request and a failing authority. -/
theorem signCertificate_failure_discards_ack_witness :
    makeResponse caFail "fresh" "now" 0
      ⟨.call, "req-1", some .signCertificate,
       some (.obj [("typeOfCertificate", .str "CSMS"), ("csr", .str "PEM")])⟩
      = .fail "" ∧
    makeResponse caFail "fresh" "now" 0
      ⟨.call, "req-1", some .signCertificate,
       some (.obj [("typeOfCertificate", .str "CSMS"), ("csr", .str "PEM")])⟩
      ≠ .ok [] := by
  have h := signCertificate_failure_discards_ack caFail "fresh" "now" 0
    ⟨.call, "req-1", some .signCertificate,
     some (.obj [("typeOfCertificate", .str "CSMS"), ("csr", .str "PEM")])⟩
    (.obj [("typeOfCertificate", .str "CSMS"), ("csr", .str "PEM")])
    "CSMS" "PEM" "failed to sign" rfl rfl rfl rfl rfl rfl
  exact ⟨h.1, h.2 []⟩

/-- C2, failing input: an Authorize Call with an absent payload makes the
dispatcher panic (`request.payload.unwrap()` in src/cs.rs:99), instead of
returning the missing-payload dispatch error the spec requires. -/
theorem authorize_missing_payload_panics :
    makeResponse caFail "fresh" "now" 0
      ⟨.call, "req-1", some .authorize, none⟩ = .panic := by
  rfl

/-- C3, failing inputs: an unmapped type code, a non-numeric element 0 or
a non-string element 1 make `unpack_message` panic (the
`.ok_or(..).unwrap()` calls in src/ocpp.rs:153-161) instead of returning
the invalid-type / invalid-id errors; only a short array and an empty id
string actually come back as returned errors. -/
theorem unpack_invalid_type_or_id_panics :
    unpackMessage (.arr [.num 5, .str "abc"]) = .panic ∧
    unpackMessage (.arr [.str "2", .str "abc"]) = .panic ∧
    unpackMessage (.arr [.num 2, .num 7]) = .panic ∧
    unpackMessage (.arr [.num 2]) = .fail "invalid len" ∧
    unpackMessage (.arr [.num 2, .str ""]) = .fail "id is empty" :=
  ⟨rfl, rfl, rfl, rfl, rfl⟩

/-- C4, counterexample: a CallResult frame without a command is answered
with the empty-command dispatch error, not the no-response one, because
`make_response` rejects an absent command before looking at the role
(src/cs.rs:36-38). -/
theorem non_call_without_command_counterexample :
    makeResponse caFail "fresh" "now" 0 ⟨.callResult, "req-1", none, none⟩
      = .fail "command is empty" ∧
    makeResponse caFail "fresh" "now" 0 ⟨.callResult, "req-1", none, none⟩
      ≠ .fail "no response" := by
  refine ⟨rfl, fun hcontra => ?_⟩
  have h2 : DispatchOutcome.fail "command is empty" = .fail "no response" :=
    (rfl : makeResponse caFail "fresh" "now" 0 ⟨.callResult, "req-1", none, none⟩
      = .fail "command is empty").symm.trans hcontra
  simp at h2

/-- C4, amended: a request without a command gets the empty-command error
whatever its role; a non-Call request that does carry a command gets the
no-response error. -/
theorem routing_empty_command_and_non_call (ca : CertificationAuthority)
    (freshId now : String) (nowSec : Nat) (req : Message) :
    (req.command = none →
      makeResponse ca freshId now nowSec req = .fail "command is empty") ∧
    (∀ c : Command, req.command = some c → req.role ≠ .call →
      makeResponse ca freshId now nowSec req = .fail "no response") := by
  constructor
  · intro h
    unfold makeResponse
    rw [h]
  · intro c hc hrole
    unfold makeResponse
    rw [hc]
    cases hr : req.role
    · exact absurd hr hrole
    · cases c <;> rfl
    · cases c <;> rfl

/-- Witness for the amended C4 at two concrete requests. -/
theorem routing_empty_command_and_non_call_witness :
    makeResponse caFail "fresh" "now" 0 ⟨.call, "req-1", none, none⟩
      = .fail "command is empty" ∧
    makeResponse caFail "fresh" "now" 0 ⟨.callError, "req-1", some .heartbeat, none⟩
      = .fail "no response" :=
  ⟨(routing_empty_command_and_non_call caFail "fresh" "now" 0
      ⟨.call, "req-1", none, none⟩).1 rfl,
   (routing_empty_command_and_non_call caFail "fresh" "now" 0
      ⟨.callError, "req-1", some .heartbeat, none⟩).2 .heartbeat rfl (by decide)⟩

/-- C5: a SignCertificate Call with string typeOfCertificate and csr
members, when the certification authority signs successfully, yields
exactly two messages: the acknowledgment CallResult carrying the request
id and payload status Accepted, then a CertificateSigned Call whose id is
the freshly generated one (assumed, as the spec does, distinct from the
request id) and whose payload member cert[0] is the hex encoding of the
first returned certificate. -/
theorem signCertificate_success_two_messages (ca : CertificationAuthority)
    (freshId now : String) (nowSec : Nat) (req : Message) (p : Json)
    (t c : String) (cert0 : Certificate) (rest : List Certificate)
    (hrole : req.role = .call) (hcmd : req.command = some .signCertificate)
    (hpl : req.payload = some p)
    (ht : (p.getField "typeOfCertificate").asStr = some t)
    (hc : (p.getField "csr").asStr = some c)
    (hca : ca ⟨strBytes c, .pem⟩ = .ok (cert0 :: rest))
    (hid : freshId ≠ req.id) :
    ∃ notif : Message,
      makeResponse ca freshId now nowSec req =
        .ok [⟨.callResult, req.id, none, some (.obj [("status", .str "Accepted")])⟩,
             notif] ∧
      notif.role = .call ∧ notif.id = freshId ∧ notif.id ≠ req.id ∧
      notif.command = some .certificateSigned ∧
      ∃ pl : Json, notif.payload = some pl ∧
        (pl.getField "cert").idx 0 = .str (hexEncode cert0.data) := by
  refine ⟨⟨.call, freshId, some .certificateSigned,
    some (.obj [("cert", .arr [.str (hexEncode cert0.data)]),
                ("typeOfCertificate", .str t)])⟩, ?_, rfl, rfl, hid, rfl, ?_⟩
  · unfold makeResponse makeSignCertificateResponse
    rw [hcmd, hrole, hpl]
    dsimp only
    rw [ht]
    dsimp only
    rw [hc]
    dsimp only
    rw [hca]
    rfl
  · exact ⟨_, rfl, rfl⟩

/-- Witness for C5 at a concrete request and an authority returning one
certificate with bytes [0xde, 0xad]. -/
theorem signCertificate_success_two_messages_witness :
    ∃ notif : Message,
      makeResponse caOk "fresh" "now" 0
        ⟨.call, "req-1", some .signCertificate,
         some (.obj [("typeOfCertificate", .str "CSMS"), ("csr", .str "PEM")])⟩ =
        .ok [⟨.callResult, "req-1", none, some (.obj [("status", .str "Accepted")])⟩,
             notif] ∧
      notif.role = .call ∧ notif.id = "fresh" ∧ notif.id ≠ "req-1" ∧
      notif.command = some .certificateSigned ∧
      ∃ pl : Json, notif.payload = some pl ∧
        (pl.getField "cert").idx 0 = .str (hexEncode [222, 173]) :=
  signCertificate_success_two_messages caOk "fresh" "now" 0
    ⟨.call, "req-1", some .signCertificate,
     some (.obj [("typeOfCertificate", .str "CSMS"), ("csr", .str "PEM")])⟩
    (.obj [("typeOfCertificate", .str "CSMS"), ("csr", .str "PEM")])
    "CSMS" "PEM" ⟨[222, 173], .pem⟩ []
    rfl rfl rfl rfl rfl rfl (by decide)

/-- C6: packing a message whose command is one of the nine recognized
commands and unpacking the result reproduces the message exactly — role,
id, command and a structurally equal payload (the id is non-empty, as the
data model requires). -/
theorem unpack_pack_roundtrip (m : Message) (c : Command)
    (hcmd : m.command = some c) (hid : m.id ≠ "") :
    unpackMessage (packMessage m) = .ok m := by
  obtain ⟨role, id, cmd, pl⟩ := m
  simp only at hcmd hid
  subst hcmd
  cases role <;> cases pl <;>
    simp [packMessage, unpackMessage, Json.len, Json.idx, Json.asU8, Json.asStr,
      MessageType.toWire, MessageType.tryFromU8, tryFromStr_toWireString, hid,
      List.getD]

/-- Witness for C6 at a concrete Heartbeat message. -/
theorem unpack_pack_roundtrip_witness :
    unpackMessage (packMessage
      ⟨.call, "id-1", some .heartbeat, some (.obj [("a", .num 1)])⟩) =
      .ok ⟨.call, "id-1", some .heartbeat, some (.obj [("a", .num 1)])⟩ :=
  unpack_pack_roundtrip
    ⟨.call, "id-1", some .heartbeat, some (.obj [("a", .num 1)])⟩
    .heartbeat rfl (by decide)

/-- C7: a Call carrying any recognized command other than SignCertificate
(with a payload present when the command is Authorize) is answered with
exactly one message: a CallResult carrying the request id. -/
theorem call_recognized_single_callResult (ca : CertificationAuthority)
    (freshId now : String) (nowSec : Nat) (req : Message) (c : Command)
    (hrole : req.role = .call) (hcmd : req.command = some c)
    (hns : c ≠ .signCertificate)
    (hauth : c = .authorize → req.payload.isSome) :
    ∃ p : Json, makeResponse ca freshId now nowSec req =
      .ok [⟨.callResult, req.id, none, some p⟩] := by
  unfold makeResponse
  rw [hcmd, hrole]
  cases c
  case signCertificate => exact absurd rfl hns
  case authorize =>
    obtain ⟨p, hp⟩ := Option.isSome_iff_exists.mp (hauth rfl)
    dsimp only
    unfold makeAuthorizeResponse
    rw [hp]
    exact ⟨_, rfl⟩
  all_goals exact ⟨_, rfl⟩

/-- Witness for C7 at a concrete Heartbeat request. -/
theorem call_recognized_single_callResult_witness :
    ∃ p : Json, makeResponse caFail "fresh" "now" 0
      ⟨.call, "req-1", some .heartbeat, none⟩ =
      .ok [⟨.callResult, "req-1", none, some p⟩] :=
  call_recognized_single_callResult caFail "fresh" "now" 0
    ⟨.call, "req-1", some .heartbeat, none⟩ .heartbeat
    rfl rfl (by decide) (fun h => by cases h)

/-- C8, failing inputs: a SignCertificate Call whose payload lacks the
typeOfCertificate member, or whose csr member is not a string, makes the
dispatcher panic (the `as_str().unwrap()` reads in src/cs.rs:135-139)
instead of returning an error as the spec requires. -/
theorem signCertificate_missing_fields_panics :
    makeResponse caFail "fresh" "now" 0
      ⟨.call, "req-1", some .signCertificate, some (.obj [])⟩ = .panic ∧
    makeResponse caFail "fresh" "now" 0
      ⟨.call, "req-1", some .signCertificate,
       some (.obj [("typeOfCertificate", .str "CSMS"), ("csr", .num 5)])⟩
      = .panic :=
  ⟨rfl, rfl⟩

/-- C9: a message with no command and a payload packs to a 3-element
array whose third element is the payload — the position unpack reads as
the command — so unpacking that output yields a message with no payload;
and every CallResult a successful dispatch produces has exactly this
shape (no command, a payload). -/
theorem pack_no_command_payload_position (m : Message) (p : Json)
    (hcmd : m.command = none) (hpl : m.payload = some p) (hid : m.id ≠ "") :
    packMessage m = .arr [.num m.role.toWire, .str m.id, p] ∧
    (∃ m2 : Message, unpackMessage (packMessage m) = .ok m2 ∧
      m2.payload = none) ∧
    ∀ (ca : CertificationAuthority) (freshId now : String) (nowSec : Nat)
      (req : Message) (msgs : List Message),
      makeResponse ca freshId now nowSec req = .ok msgs →
      ∀ resp ∈ msgs, resp.role = .callResult →
        resp.command = none ∧ resp.payload.isSome := by
  refine ⟨?_, ?_, ?_⟩
  · simp [packMessage, hcmd, hpl]
  · refine ⟨⟨m.role, m.id,
      (match p.asStr with
       | some s => Command.tryFromStr s
       | none => none), none⟩, ?_, rfl⟩
    cases hr : m.role <;>
      simp [packMessage, unpackMessage, Json.len, Json.idx, Json.asU8, Json.asStr,
        MessageType.toWire, MessageType.tryFromU8, hcmd, hpl, hid, hr, List.getD]
  · intro ca freshId now nowSec req msgs h resp hresp hrole
    rcases makeResponse_ok_mem ca freshId now nowSec req msgs h resp hresp
      with h1 | h1
    · exact ⟨h1.2.1, h1.2.2.2⟩
    · exact MessageType.noConfusion (hrole.symm.trans h1.1)

/-- Witness for C9 at a concrete CallResult-shaped message. -/
theorem pack_no_command_payload_position_witness :
    packMessage (⟨.callResult, "id-1", none, some (.obj [("a", .num 1)])⟩ : Message)
      = .arr [.num 3, .str "id-1", .obj [("a", .num 1)]] ∧
    (∃ m2 : Message,
      unpackMessage (packMessage
        (⟨.callResult, "id-1", none, some (.obj [("a", .num 1)])⟩ : Message)) =
        .ok m2 ∧ m2.payload = none) :=
  ⟨(pack_no_command_payload_position
      ⟨.callResult, "id-1", none, some (.obj [("a", .num 1)])⟩
      (.obj [("a", .num 1)]) rfl rfl (by decide)).1,
   (pack_no_command_payload_position
      ⟨.callResult, "id-1", none, some (.obj [("a", .num 1)])⟩
      (.obj [("a", .num 1)]) rfl rfl (by decide)).2.1⟩

/-- C10: every message of a successful dispatch with role CallResult has
no command and carries the request id, and every returned message with
role Call carries the freshly generated id and the CertificateSigned
command. -/
theorem response_roles_ids_invariant (ca : CertificationAuthority)
    (freshId now : String) (nowSec : Nat) (req : Message)
    (msgs : List Message)
    (h : makeResponse ca freshId now nowSec req = .ok msgs) :
    ∀ m ∈ msgs,
      (m.role = .callResult → m.command = none ∧ m.id = req.id) ∧
      (m.role = .call → m.id = freshId ∧ m.command = some .certificateSigned) := by
  intro m hm
  rcases makeResponse_ok_mem ca freshId now nowSec req msgs h m hm with h1 | h1
  · exact ⟨fun _ => ⟨h1.2.1, h1.2.2.1⟩,
      fun hc => MessageType.noConfusion (h1.1.symm.trans hc)⟩
  · exact ⟨fun hc => MessageType.noConfusion (h1.1.symm.trans hc),
      fun _ => ⟨h1.2.2.1, h1.2.1⟩⟩

/-- Witness for C10 at the CertificateSigned notification of a concrete
successful SignCertificate dispatch. -/
theorem response_roles_ids_invariant_witness :
    ((⟨.call, "fresh", some .certificateSigned,
        some (.obj [("cert", .arr [.str (hexEncode [222, 173])]),
                    ("typeOfCertificate", .str "CSMS")])⟩ : Message).role
        = .callResult →
      (⟨.call, "fresh", some .certificateSigned,
        some (.obj [("cert", .arr [.str (hexEncode [222, 173])]),
                    ("typeOfCertificate", .str "CSMS")])⟩ : Message).command = none ∧
      (⟨.call, "fresh", some .certificateSigned,
        some (.obj [("cert", .arr [.str (hexEncode [222, 173])]),
                    ("typeOfCertificate", .str "CSMS")])⟩ : Message).id = "req-1") ∧
    ((⟨.call, "fresh", some .certificateSigned,
        some (.obj [("cert", .arr [.str (hexEncode [222, 173])]),
                    ("typeOfCertificate", .str "CSMS")])⟩ : Message).role = .call →
      (⟨.call, "fresh", some .certificateSigned,
        some (.obj [("cert", .arr [.str (hexEncode [222, 173])]),
                    ("typeOfCertificate", .str "CSMS")])⟩ : Message).id = "fresh" ∧
      (⟨.call, "fresh", some .certificateSigned,
        some (.obj [("cert", .arr [.str (hexEncode [222, 173])]),
                    ("typeOfCertificate", .str "CSMS")])⟩ : Message).command
        = some .certificateSigned) :=
  response_roles_ids_invariant caOk "fresh" "now" 0
    ⟨.call, "req-1", some .signCertificate,
     some (.obj [("typeOfCertificate", .str "CSMS"), ("csr", .str "PEM")])⟩
    [⟨.callResult, "req-1", none, some ackPayload⟩,
     ⟨.call, "fresh", some .certificateSigned,
      some (.obj [("cert", .arr [.str (hexEncode [222, 173])]),
                  ("typeOfCertificate", .str "CSMS")])⟩]
    rfl
    ⟨.call, "fresh", some .certificateSigned,
     some (.obj [("cert", .arr [.str (hexEncode [222, 173])]),
                 ("typeOfCertificate", .str "CSMS")])⟩
    (by simp)

end DummyCS
